import Mathlib

/-!
Verification of the Profter heater BLE protocol engine
(`custom_components/profter_heater/ble.py`).

Conventions of the shallow embedding:

* A wire frame is a `List Nat` of byte values.
* Temperatures are kept in exact tenths of a degree (the raw signed 16-bit
  value).  The Python code computes `raw / 10.0` as a float and compares it
  against `-40.0 / 80.0 / 250.0`; for every 16-bit input this float
  comparison agrees with comparing the raw integer against
  `-400 / 800 / 2500`, because the bounds are exact multiples of one tenth
  and the rounding error of `raw / 10.0` is far smaller than the distance
  to the nearest bound.  The functions `decodedRoomC` / `decodedHeaterC`
  recover the rational value in degrees Celsius.
* Times are kept in centiseconds (`ℤ`).  Every time constant in the source
  (0.9 s, 1.8 s, 0.15 s, 0.25 s, 1.2 s, 1.0 s, 4.0 s, 25.0 s) is an exact
  multiple of one centisecond, so this fixed-point clock is exact.
-/

deriving instance DecidableEq for Except

namespace Profter

/-- A wire frame: a list of byte values as handed over by the BLE layer. -/
abbrev Frame := List Nat

/-- Little-endian unsigned 16-bit read at a byte offset
(`struct.unpack_from "<H"`, function `_u16le`). -/
def u16le (p : Frame) (off : Nat) : Nat :=
  p.getD off 0 + 256 * p.getD (off + 1) 0

/-- Value of a little-endian signed 16-bit read at a byte offset
(`struct.unpack_from "<h"`, function `_s16le`). -/
def s16leVal (p : Frame) (off : Nat) : Int :=
  let u := u16le p off
  if u < 32768 then (u : Int) else (u : Int) - 65536

/-- Reading `struct.unpack_from "<h"` raises `struct.error` when fewer than two
bytes remain at the offset; `none` models that exception. -/
def s16le (p : Frame) (off : Nat) : Option Int :=
  if off + 2 ≤ p.length then some (s16leVal p off) else none

/-- The scan loop of `parse_onoff_from_status52`:
`for i in range(0, len(p) - 6)`, checking for the `A5 05` sync marker and
reading the flag pair at `i+4 / i+5`.  A marker whose flag pair is neither
`(01,73)` nor `(02,EF)` does not end the loop: scanning continues. -/
def onoffScan (p : Frame) : List Nat → Option Bool
  | [] => none
  | i :: rest =>
    if p.getD i 0 = 0xA5 ∧ p.getD (i + 1) 0 = 0x05 then
      if p.getD (i + 4) 0 = 0x01 ∧ p.getD (i + 5) 0 = 0x73 then some true
      else if p.getD (i + 4) 0 = 0x02 ∧ p.getD (i + 5) 0 = 0xEF then some false
      else onoffScan p rest
    else onoffScan p rest

/-- Function `parse_onoff_from_status52` (ble.py lines 56-68). -/
def parse_onoff_from_status52 (p : Frame) : Option Bool :=
  if p.length = 52 then onoffScan p (List.range (p.length - 6)) else none

/-- Function `parse_temps_best_effort` (ble.py lines 71-86), in tenths of a degree.
If either 16-bit read raises, the `except struct.error` branch yields
`(None, None)`. -/
def parse_temps_best_effort (p : Frame) : Option Int × Option Int :=
  if p.length ≠ 52 then (none, none)
  else
    match s16le p 14, s16le p 16 with
    | some rm, some ht =>
      ((if -400 ≤ rm ∧ rm ≤ 800 then some rm else none),
       (if -400 ≤ ht ∧ ht ≤ 2500 then some ht else none))
    | _, _ => (none, none)

/-- Decoded room temperature in degrees Celsius (the value the Python code
stores, `_s16le(p, 14) / 10.0`). -/
def decodedRoomC (p : Frame) : Option ℚ :=
  ((parse_temps_best_effort p).1).map (fun v : ℤ => (v : ℚ) / 10)

/-- Decoded heater temperature in degrees Celsius (the value the Python
code stores, `_s16le(p, 16) / 10.0`). -/
def decodedHeaterC (p : Frame) : Option ℚ :=
  ((parse_temps_best_effort p).2).map (fun v : ℤ => (v : ℚ) / 10)

/-- Specification-side view of one scan position: the power-state decision
carried by a sync marker at offset `i`, `none` when there is no marker at
`i` or its flag pair is unrecognized. -/
def onoffSpecAt (p : Frame) (i : Nat) : Option Bool :=
  if p.getD i 0 = 0xA5 ∧ p.getD (i + 1) 0 = 0x05 then
    if p.getD (i + 4) 0 = 0x01 ∧ p.getD (i + 5) 0 = 0x73 then some true
    else if p.getD (i + 4) 0 = 0x02 ∧ p.getD (i + 5) 0 = 0xEF then some false
    else none
  else none

theorem onoffScan_cons (p : Frame) (i : Nat) (rest : List Nat) :
    onoffScan p (i :: rest) =
      match onoffSpecAt p i with
      | some b => some b
      | none => onoffScan p rest := by
  show (if p.getD i 0 = 0xA5 ∧ p.getD (i + 1) 0 = 0x05 then
      if p.getD (i + 4) 0 = 0x01 ∧ p.getD (i + 5) 0 = 0x73 then some true
      else if p.getD (i + 4) 0 = 0x02 ∧ p.getD (i + 5) 0 = 0xEF then some false
      else onoffScan p rest
    else onoffScan p rest) = _
  unfold onoffSpecAt
  split_ifs <;> rfl

theorem onoffScan_eq_findSome (p : Frame) :
    ∀ l : List Nat, onoffScan p l = l.findSome? (onoffSpecAt p) := by
  intro l
  induction l with
  | nil => rfl
  | cons i rest ih =>
    rw [onoffScan_cons, List.findSome?_cons]
    cases hs : onoffSpecAt p i with
    | none => exact ih
    | some b => rfl

theorem findSome?_eq_none_of_all_none {α β : Type} (f : α → Option β) :
    ∀ l : List α, (∀ i ∈ l, f i = none) → l.findSome? f = none := by
  intro l
  induction l with
  | nil => intro _; rfl
  | cons a rest ih =>
    intro h
    have ha : f a = none := h a (by simp)
    simp only [List.findSome?, ha]
    exact ih fun i hi => h i (by simp [hi])

/-- A 52-byte frame whose first sync marker (at offset 0) carries an
unrecognized flag pair, while a later marker (at offset 6) carries the
power-on pair `(01,73)`. -/
def cexFrameC1 : Frame :=
  [0xA5, 0x05, 0, 0, 0, 0, 0xA5, 0x05, 0, 0, 0x01, 0x73] ++ List.replicate 40 0

/-- C1 counterexample: `cexFrameC1` is 52 bytes long, its first sync
marker sits at offset 0 and the flag pair there is `(0,0)` — recognized as
neither power-on nor power-off — yet the decoder answers `power_on = true`
(from the later marker at offset 6), not `None` as the claim states. -/
theorem C1_counterexample :
    cexFrameC1.length = 52 ∧
    cexFrameC1.getD 0 0 = 0xA5 ∧ cexFrameC1.getD 1 0 = 0x05 ∧
    ¬ (cexFrameC1.getD 4 0 = 0x01 ∧ cexFrameC1.getD 5 0 = 0x73) ∧
    ¬ (cexFrameC1.getD 4 0 = 0x02 ∧ cexFrameC1.getD 5 0 = 0xEF) ∧
    parse_onoff_from_status52 cexFrameC1 = some true := by
  decide

/-- C1 (amended): for every 52-byte frame the decoder scans offsets
0..45 in order and returns the decision of the first sync marker whose
flag pair is recognized (`(01,73)` giving `true`, `(02,EF)` giving
`false`); a marker with any other pair is skipped and the scan continues;
`power_on = None` exactly when no marker in the scanned range carries a
recognized pair. -/
theorem C1_first_recognized_marker (p : Frame) (h : p.length = 52) :
    parse_onoff_from_status52 p = (List.range 46).findSome? (onoffSpecAt p) := by
  simp only [parse_onoff_from_status52, h]
  simpa using onoffScan_eq_findSome p (List.range 46)

/-- Witness for C1's amended theorem at the concrete frame `cexFrameC1`. -/
theorem C1_first_recognized_marker_witness :
    parse_onoff_from_status52 cexFrameC1 =
      (List.range 46).findSome? (onoffSpecAt cexFrameC1) :=
  C1_first_recognized_marker cexFrameC1 (by decide)

/-- C5: for every byte sequence whose length is not 52, both decoders
yield all-`None` fields (fail closed, no exception, no misread). -/
theorem C5_wrong_length (p : Frame) (h : p.length ≠ 52) :
    parse_onoff_from_status52 p = none ∧
    parse_temps_best_effort p = (none, none) := by
  constructor
  · simp [parse_onoff_from_status52, h]
  · simp [parse_temps_best_effort, h]

/-- Witness for C5 at the concrete 3-byte input `[0, 1, 2]`. -/
theorem C5_wrong_length_witness :
    parse_onoff_from_status52 [0, 1, 2] = none ∧
    parse_temps_best_effort [0, 1, 2] = (none, none) :=
  C5_wrong_length [0, 1, 2] (by decide)

/-- C6: for every 52-byte frame, the room and heater temperatures are the
little-endian signed 16-bit integers at byte offsets 14 and 16 scaled by
0.1 degrees, and each value is discarded to `None` exactly when it falls
outside `[-40, 80]` (room) or `[-40, 250]` (heater) degrees. -/
theorem qScaleLe (v b : ℤ) : ((v : ℚ) / 10 ≤ (b : ℚ) ↔ v ≤ 10 * b) := by
  rw [div_le_iff₀ (by norm_num : (0 : ℚ) < 10)]
  constructor
  · intro hv
    have hv2 : (v : ℚ) ≤ ((10 * b : ℤ) : ℚ) := by push_cast; linarith
    exact_mod_cast hv2
  · intro hv
    have hv2 : (v : ℚ) ≤ ((10 * b : ℤ) : ℚ) := by exact_mod_cast hv
    push_cast at hv2; linarith

theorem qScaleGe (v b : ℤ) : ((b : ℚ) ≤ (v : ℚ) / 10 ↔ 10 * b ≤ v) := by
  rw [le_div_iff₀ (by norm_num : (0 : ℚ) < 10)]
  constructor
  · intro hv
    have hv2 : ((10 * b : ℤ) : ℚ) ≤ (v : ℚ) := by push_cast; linarith
    exact_mod_cast hv2
  · intro hv
    have hv2 : ((10 * b : ℤ) : ℚ) ≤ (v : ℚ) := by exact_mod_cast hv
    push_cast at hv2; linarith

theorem ifScaleBounds (v lo hi : ℤ) :
    Option.map (fun a : ℤ => (a : ℚ) / 10)
        (if 10 * lo ≤ v ∧ v ≤ 10 * hi then some v else none) =
      (if (lo : ℚ) ≤ (v : ℚ) / 10 ∧ (v : ℚ) / 10 ≤ (hi : ℚ)
       then some ((v : ℚ) / 10) else none) := by
  simp only [qScaleGe, qScaleLe]
  split_ifs <;> simp

theorem parse_temps_at52 (p : Frame) (h : p.length = 52) :
    parse_temps_best_effort p =
      ((if -400 ≤ s16leVal p 14 ∧ s16leVal p 14 ≤ 800 then some (s16leVal p 14) else none),
       (if -400 ≤ s16leVal p 16 ∧ s16leVal p 16 ≤ 2500 then some (s16leVal p 16) else none)) := by
  have h14 : s16le p 14 = some (s16leVal p 14) := by simp [s16le, h]
  have h16 : s16le p 16 = some (s16leVal p 16) := by simp [s16le, h]
  simp only [parse_temps_best_effort]
  rw [if_neg (by simp [h]), h14, h16]

theorem C6_temps (p : Frame) (h : p.length = 52) :
    decodedRoomC p =
      (if (-40 : ℚ) ≤ (s16leVal p 14 : ℚ) / 10 ∧ (s16leVal p 14 : ℚ) / 10 ≤ 80
       then some ((s16leVal p 14 : ℚ) / 10) else none) ∧
    decodedHeaterC p =
      (if (-40 : ℚ) ≤ (s16leVal p 16 : ℚ) / 10 ∧ (s16leVal p 16 : ℚ) / 10 ≤ 250
       then some ((s16leVal p 16 : ℚ) / 10) else none) := by
  have hr := ifScaleBounds (s16leVal p 14) (-40) 80
  have hh := ifScaleBounds (s16leVal p 16) (-40) 250
  norm_num at hr hh
  constructor
  · rw [decodedRoomC, parse_temps_at52 p h]
    simpa using hr
  · rw [decodedHeaterC, parse_temps_at52 p h]
    simpa using hh

/-- A 52-byte frame whose room-offset bytes decode to 202 (`CA 00`) and
whose heater-offset bytes decode to 800 (`20 03`). -/
def tempFrame : Frame :=
  List.replicate 14 0 ++ [0xCA, 0x00, 0x20, 0x03] ++ List.replicate 34 0

/-- Witness for C6 at `tempFrame`: raw 202 yields 20.2 degrees and raw 800
yields 80.0 degrees, both inside their ranges. -/
theorem C6_temps_witness :
    decodedRoomC tempFrame = some (101 / 5) ∧
    decodedHeaterC tempFrame = some 80 := by
  have h := C6_temps tempFrame (by decide)
  have h14 : s16leVal tempFrame 14 = 202 := by decide
  have h16 : s16leVal tempFrame 16 = 800 := by decide
  rw [h14, h16] at h
  rcases h with ⟨h1, h2⟩
  rw [h1, h2]
  norm_num

/-- A 52-byte frame whose only sync marker starts at offset 46, followed
by the power-on flag pair at offsets 50/51. -/
def lateFrame : Frame :=
  List.replicate 46 0 ++ [0xA5, 0x05, 0, 0, 0x01, 0x73]

/-- C10: the marker scan examines only start offsets 0 through 45 of a
52-byte frame; when no marker in that range carries a recognized flag
pair, `power_on = None` — whatever bytes (including a sync marker with a
valid pair) sit at offset 46 or later. -/
theorem C10_scan_range (p : Frame) (h : p.length = 52)
    (hm : ∀ i, i < 46 → onoffSpecAt p i = none) :
    parse_onoff_from_status52 p = none := by
  simp only [parse_onoff_from_status52, h]
  norm_num
  rw [onoffScan_eq_findSome]
  exact findSome?_eq_none_of_all_none _ _ fun i hi => hm i (List.mem_range.mp hi)

/-- Witness for C10: `lateFrame` carries a sync marker at offset 46 with
the power-on pair at 50/51, yet decodes to `power_on = None`. -/
theorem C10_scan_range_witness :
    lateFrame.getD 46 0 = 0xA5 ∧ lateFrame.getD 47 0 = 0x05 ∧
    lateFrame.getD 50 0 = 0x01 ∧ lateFrame.getD 51 0 = 0x73 ∧
    parse_onoff_from_status52 lateFrame = none :=
  ⟨by decide, by decide, by decide, by decide,
    C10_scan_range lateFrame (by decide) (by decide)⟩

/-!
## Device session model

`ProfterHeaterBLE` is an asyncio class; the embedding below is a
deterministic state-passing model.  Time is the event-loop clock in
centiseconds (`ℤ`); synchronous code takes no time, every `await`
advances the clock by an environment-supplied duration.  The
environment (`Env`) fixes the outcome of every transport interaction:
whether a handle reports itself live, whether the k-th `connect`
succeeds, what the k-th `read_gatt_char` returns (`none` models the
swallowed read exception), whether the k-th `write_gatt_char` raises,
and what notification (arrival delay and bytes) the device pushes
during the k-th wait on the 52-byte event.  A `Cursor` counts the
interactions performed so far, so the environment streams are consumed
in order and the counts of connects/subscribes are observable.
-/

/-- The `Parsed` dataclass (ble.py lines 31-36); temperatures in tenths of
a degree (see the fixed-point convention above). -/
structure Parsed where
  is_on : Option Bool := none
  room_c : Option Int := none
  heater_c : Option Int := none
  raw52 : Option Frame := none
deriving DecidableEq, Repr

/-- Mutable state of a `ProfterHeaterBLE` session: the link handle (a
numeric id, `none` when disconnected), the last parsed status, the
notification bookkeeping of `_notification_cb`, the 52-byte event flag,
and the event-loop clock in centiseconds. -/
structure SState where
  client : Option Nat := none
  last : Parsed := {}
  notifyCount : Nat := 0
  lastNotifyLen : Option Nat := none
  lastAnyNotifyTs : Option Int := none
  last52Ts : Option Int := none
  last8Ts : Option Int := none
  evt52 : Bool := false
  now : Int := 0
deriving DecidableEq, Repr

/-- Counts of transport interactions performed so far; each count indexes
the corresponding environment stream. -/
structure Cursor where
  connects : Nat := 0
  subscribes : Nat := 0
  reads : Nat := 0
  writes : Nat := 0
  waits : Nat := 0
deriving DecidableEq, Repr

/-- The transport environment: outcome streams for every interaction. -/
structure Env where
  isConnected : Nat → Bool
  connectOk : Nat → Bool
  connectDt : Nat → Int
  readResult : Nat → Option Frame
  readDt : Nat → Int
  writeOk : Nat → Bool
  writeDt : Nat → Int
  waitArrival : Nat → Option (Int × Frame)

/-- Method `_parse_52` (ble.py lines 168-190): overwrite all fields of the stored
`Parsed` from a 52-byte frame. -/
def parse52into (s : SState) (b : Frame) : SState :=
  { s with last := { is_on := parse_onoff_from_status52 b,
                     room_c := (parse_temps_best_effort b).1,
                     heater_c := (parse_temps_best_effort b).2,
                     raw52 := some b } }

/-- Method `_notification_cb` (ble.py lines 134-166): count the notification,
stamp the timestamps by length, and for a 52-byte frame parse it and set
the event; any other length is only logged. -/
def notifyCb (s : SState) (b : Frame) : SState :=
  let ln := b.length
  let s1 := { s with notifyCount := s.notifyCount + 1,
                     lastNotifyLen := some ln,
                     lastAnyNotifyTs := some s.now,
                     last52Ts := if ln = 52 then some s.now else s.last52Ts,
                     last8Ts := if ln = 8 then some s.now else s.last8Ts }
  if ln = 52 then { parse52into s1 b with evt52 := true } else s1

/-- Method `disconnect` (ble.py lines 226-238): stop-notify/close errors are
swallowed; the handle is nulled on every path.  A `None` handle returns
immediately with the same net effect. -/
def disconnectOp (s : SState) : SState :=
  { s with client := none }

/-- Method `connect` (ble.py lines 206-224): wait for the advertisement, build
the link (both folded into the k-th `connectOk`/`connectDt` entry; a
failure models `BleakNotFoundError` as well as exhausted connection
attempts), subscribe to notifications (`start_notify` failures are
swallowed, so the subscribe attempt always counts), and clear the 52-byte
event.  A successful connect yields the fresh handle id `k + 1`. -/
def connectOp (env : Env) (s : SState) (cur : Cursor) :
    Except Unit Nat × SState × Cursor :=
  let k := cur.connects
  let s1 := { s with now := s.now + env.connectDt k }
  if env.connectOk k then
    (Except.ok (k + 1),
     { s1 with client := some (k + 1), evt52 := false },
     { cur with connects := k + 1, subscribes := cur.subscribes + 1 })
  else
    (Except.error (), s1, { cur with connects := k + 1 })

/-- Method `_ensure` (ble.py lines 240-247): a live handle is returned unchanged;
otherwise tear down and reconnect. -/
def ensureOp (env : Env) (s : SState) (cur : Cursor) :
    Except Unit Nat × SState × Cursor :=
  match s.client with
  | some c =>
    if env.isConnected c then (Except.ok c, s, cur)
    else connectOp env (disconnectOp s) cur
  | none => connectOp env (disconnectOp s) cur

/-- Method `_write` (ble.py lines 265-275): one `write_gatt_char`, succeeding or
raising according to the k-th `writeOk` entry. -/
def doWrite (env : Env) (s : SState) (cur : Cursor) : Bool × SState × Cursor :=
  let k := cur.writes
  (env.writeOk k, { s with now := s.now + env.writeDt k },
   { cur with writes := k + 1 })

/-- Method `_try_read_status52` (ble.py lines 249-263): read the notify
characteristic; a 52-byte answer is parsed and stamps the timestamps; any
other answer, and any read exception (`readResult k = none`), yields
`False`. -/
def tryRead52 (env : Env) (s : SState) (cur : Cursor) : Bool × SState × Cursor :=
  let k := cur.reads
  let cur1 := { cur with reads := k + 1 }
  let s1 := { s with now := s.now + env.readDt k }
  match env.readResult k with
  | some b =>
    if b.length = 52 then
      let s2 := parse52into s1 b
      (true, { s2 with lastAnyNotifyTs := some s2.now, last52Ts := some s2.now }, cur1)
    else (false, s1, cur1)
  | none => (false, s1, cur1)

/-- The wait `asyncio.wait_for(self._evt_52.wait(), timeout=w)` after the event was
cleared: the k-th arrival entry gives the first notification pushed during
the wait (delay in centiseconds and bytes).  A 52-byte frame arriving
within `w` fires the callback and ends the wait; any other frame fires
the callback and the wait still times out at `w`; `none`, or an arrival
later than `w`, is a plain timeout. -/
def waitEvt52 (env : Env) (w : Int) (s : SState) (cur : Cursor) :
    Bool × SState × Cursor :=
  let k := cur.waits
  let cur1 := { cur with waits := k + 1 }
  match env.waitArrival k with
  | some (d, b) =>
    if 0 ≤ d ∧ d ≤ w then
      let s1 := notifyCb { s with now := s.now + d } b
      if s1.evt52 then (true, s1, cur1)
      else (false, { s1 with now := s.now + w }, cur1)
    else (false, { s with now := s.now + w }, cur1)
  | none => (false, { s with now := s.now + w }, cur1)

/-- The inner `_try` of `_poll_for_52` (ble.py lines 284-291): clear the
event, write the poll payload, wait up to `waitSec`; a write exception
propagates (`Except.error`). -/
def pollTry (env : Env) (waitSec : Int) (s : SState) (cur : Cursor) :
    Except Unit Bool × SState × Cursor :=
  let s0 := { s with evt52 := false }
  let (wok, s1, cur1) := doWrite env s0 cur
  if wok then
    let (got, s2, cur2) := waitEvt52 env waitSec s1 cur1
    (Except.ok got, s2, cur2)
  else (Except.error (), s1, cur1)

/-- Method `_poll_for_52` (ble.py lines 277-304): two tries (no-response then
response mode — the mode does not change the model's behaviour), each
waiting `min 90 left` centiseconds, strictly within `budget`. -/
def pollFor52 (env : Env) (budget : Int) (s : SState) (cur : Cursor) :
    Except Unit Bool × SState × Cursor :=
  let start := s.now
  let left1 := budget - (s.now - start)
  if left1 ≤ 0 then (Except.ok false, s, cur)
  else
    match pollTry env (min 90 left1) s cur with
    | (Except.error e, s1, cur1) => (Except.error e, s1, cur1)
    | (Except.ok true, s1, cur1) => (Except.ok true, s1, cur1)
    | (Except.ok false, s1, cur1) =>
      let left2 := budget - (s1.now - start)
      if left2 ≤ 0 then (Except.ok false, s1, cur1)
      else pollTry env (min 90 left2) s1 cur1

/-- Method `_recent_idle_notify` (ble.py lines 306-307). -/
def recentIdleNotify (s : SState) (sinceTs windowSec : Int) : Bool :=
  match s.last8Ts with
  | some t8 => decide (sinceTs ≤ t8 ∧ s.now - t8 ≤ windowSec)
  | none => false

/-- The `for attempt in range(1, 4)` loop of `poll_status` (ble.py lines
340-399), with the attempt budget `min 180 remaining` (1.8 s), the two
idle-frame fast returns (window 100 = 1.0 s), the optional read, the
0.15 s pause, and the reconnect-and-continue handler for a poll error.
Returns `some p` on an early `return self._last`, `none` when the loop
ends with no 52-byte frame. -/
def pollAttempts (env : Env) (deadline pollStarted : Int) :
    Nat → SState → Cursor → Except Unit (Option Parsed) × SState × Cursor
  | 0, s, cur => (Except.ok none, s, cur)
  | Nat.succ n, s, cur =>
    let remaining := deadline - s.now
    if remaining ≤ 0 then (Except.ok none, s, cur)
    else if recentIdleNotify s pollStarted 100 then (Except.ok (some s.last), s, cur)
    else
      match pollFor52 env (min 180 remaining) s cur with
      | (Except.error _, s1, cur1) =>
        match ensureOp env (disconnectOp s1) cur1 with
        | (Except.error e, s2, cur2) => (Except.error e, s2, cur2)
        | (Except.ok _, s2, cur2) => pollAttempts env deadline pollStarted n s2 cur2
      | (Except.ok true, s1, cur1) => (Except.ok (some s1.last), s1, cur1)
      | (Except.ok false, s1, cur1) =>
        if recentIdleNotify s1 pollStarted 100 then (Except.ok (some s1.last), s1, cur1)
        else
          match (if s1.now < deadline then tryRead52 env s1 cur1 else (false, s1, cur1)) with
          | (true, s2, cur2) => (Except.ok (some s2.last), s2, cur2)
          | (false, s2, cur2) =>
            let s3 := if s2.now + 15 < deadline then { s2 with now := s2.now + 15 } else s2
            pollAttempts env deadline pollStarted n s3 cur2

/-- Step 3 of `poll_status` (ble.py lines 401-415): after an exhausted
loop, force a reconnect only when some notification has been seen and the
silence exceeds 2500 centiseconds (25 s); if no notification was ever
seen, do nothing; then return the last-known frame. -/
def pollWatchdogTail (env : Env) (s : SState) (cur : Cursor) :
    Except Unit Parsed × SState × Cursor :=
  match s.lastAnyNotifyTs with
  | some ts =>
    if s.now - ts > 2500 then
      match ensureOp env (disconnectOp s) cur with
      | (Except.error e, s1, cur1) => (Except.error e, s1, cur1)
      | (Except.ok _, s1, cur1) => (Except.ok s1.last, s1, cur1)
    else (Except.ok s.last, s, cur)
  | none => (Except.ok s.last, s, cur)

/-- Method `poll_status` (ble.py lines 309-415): ensure connected, quick read,
three poll attempts, watchdog tail.  `Except.error` models the only
escalated failure: the connection itself could not be (re-)established. -/
def pollStatus (env : Env) (timeout : Int) (s : SState) (cur : Cursor) :
    Except Unit Parsed × SState × Cursor :=
  let deadline := s.now + timeout
  let pollStarted := s.now
  match ensureOp env s cur with
  | (Except.error e, s1, cur1) => (Except.error e, s1, cur1)
  | (Except.ok _, s1, cur1) =>
    match (if s1.now < deadline then tryRead52 env s1 cur1 else (false, s1, cur1)) with
    | (true, s2, cur2) => (Except.ok s2.last, s2, cur2)
    | (false, s2, cur2) =>
      match pollAttempts env deadline pollStarted 3 s2 cur2 with
      | (Except.error e, s3, cur3) => (Except.error e, s3, cur3)
      | (Except.ok (some p), s3, cur3) => (Except.ok p, s3, cur3)
      | (Except.ok none, s3, cur3) => pollWatchdogTail env s3 cur3

/-- Consecutive `poll_status` calls (the scheduler's refresh cycles),
keeping only the evolving state and cursor. -/
def pollStatusIter (env : Env) (timeout : Int) :
    Nat → SState → Cursor → SState × Cursor
  | 0, s, cur => (s, cur)
  | Nat.succ n, s, cur =>
    match pollStatus env timeout s cur with
    | (_, s1, cur1) => pollStatusIter env timeout n s1 cur1

/-- Whether the watchdog tail fires a reconnect in state `s` (the
condition of ble.py lines 403-405): 1 when a notification has been seen
and the silence exceeds 25 s, else 0. -/
def watchFire (s : SState) : Nat :=
  match s.lastAnyNotifyTs with
  | some ts => if s.now - ts > 2500 then 1 else 0
  | none => 0

/-- The idle-frame confirmation test of `set_on(False)` (ble.py line 446):
`self._last_8_ts and (self._now() - self._last_8_ts) <= 4.0`.  Python
truthiness makes a timestamp of exactly `0.0` falsy, hence the `t8 ≠ 0`
conjunct. -/
def idleOffConfirm (s : SState) : Bool :=
  match s.last8Ts with
  | some t8 => decide (t8 ≠ 0 ∧ s.now - t8 ≤ 400)
  | none => false

/-- The command write of `set_on` (ble.py lines 427-433): one write; on
an exception, disconnect, re-ensure and retry the write once; a failure
of the retry propagates. -/
def writeCmdWithRetry (env : Env) (s : SState) (cur : Cursor) :
    Except Unit Unit × SState × Cursor :=
  let (w1, s1, cur1) := doWrite env s cur
  if w1 then (Except.ok (), s1, cur1)
  else
    match ensureOp env (disconnectOp s1) cur1 with
    | (Except.error e, s2, cur2) => (Except.error e, s2, cur2)
    | (Except.ok _, s2, cur2) =>
      let (w2, s3, cur3) := doWrite env s2 cur2
      if w2 then (Except.ok (), s3, cur3) else (Except.error (), s3, cur3)

/-- Outcome of the confirmation loop of `set_on`. -/
inductive LoopRes where
  | returned (p : Parsed)
  | deadlineHit
  | fuelOut
deriving DecidableEq, Repr

/-- The `while self._now() < deadline` loop of `set_on` (ble.py lines
439-480): already-matched check, idle-frame confirmation of "off", one
poll cycle with budget `min 120 remaining` (reconnecting on a poll
error), optional read, 0.15 s pause.  The fuel argument only bounds the
modelled number of iterations; `fuelOut` marks an unfinished model run
(the real loop always ends because the clock advances). -/
def setOnLoop (env : Env) (target : Bool) (deadline : Int) :
    Nat → SState → Cursor → Except Unit LoopRes × SState × Cursor
  | 0, s, cur => (Except.ok LoopRes.fuelOut, s, cur)
  | Nat.succ n, s, cur =>
    if ¬ s.now < deadline then (Except.ok LoopRes.deadlineHit, s, cur)
    else if s.last.is_on = some target then
      (Except.ok (LoopRes.returned s.last), s, cur)
    else if target = false ∧ idleOffConfirm s then
      let s1 := { s with last := { s.last with is_on := some false } }
      (Except.ok (LoopRes.returned s1.last), s1, cur)
    else
      let remaining := deadline - s.now
      if remaining ≤ 0 then (Except.ok LoopRes.deadlineHit, s, cur)
      else
        match pollFor52 env (min 120 remaining) s cur with
        | (Except.error _, s1, cur1) =>
          match ensureOp env (disconnectOp s1) cur1 with
          | (Except.error e, s2, cur2) => (Except.error e, s2, cur2)
          | (Except.ok _, s2, cur2) =>
            match (if s2.now < deadline then tryRead52 env s2 cur2 else (false, s2, cur2)) with
            | (r, s3, cur3) =>
              if r ∧ s3.last.is_on = some target then
                (Except.ok (LoopRes.returned s3.last), s3, cur3)
              else
                let s4 := if s3.now + 15 < deadline then { s3 with now := s3.now + 15 } else s3
                setOnLoop env target deadline n s4 cur3
        | (Except.ok ok52, s1, cur1) =>
          if ok52 ∧ s1.last.is_on = some target then
            (Except.ok (LoopRes.returned s1.last), s1, cur1)
          else
            match (if s1.now < deadline then tryRead52 env s1 cur1 else (false, s1, cur1)) with
            | (r, s3, cur3) =>
              if r ∧ s3.last.is_on = some target then
                (Except.ok (LoopRes.returned s3.last), s3, cur3)
              else
                let s4 := if s3.now + 15 < deadline then { s3 with now := s3.now + 15 } else s3
                setOnLoop env target deadline n s4 cur3

/-- The pre-loop phase of `set_on` (ble.py lines 419-437): ensure
connected, write the command with one reconnect-and-retry, then the
0.25 s settle pause when it fits before the deadline. -/
def setOnPre (env : Env) (deadline : Int) (s : SState) (cur : Cursor) :
    Except Unit Unit × SState × Cursor :=
  match ensureOp env s cur with
  | (Except.error e, s1, cur1) => (Except.error e, s1, cur1)
  | (Except.ok _, s1, cur1) =>
    match writeCmdWithRetry env s1 cur1 with
    | (Except.error e, s2, cur2) => (Except.error e, s2, cur2)
    | (Except.ok _, s2, cur2) =>
      let s3 := if s2.now + 25 < deadline then { s2 with now := s2.now + 25 } else s2
      (Except.ok (), s3, cur2)

/-- Method `set_on` (ble.py lines 417-491).  The overall result is `ok (some p)`
for a normal return with `Parsed` value `p` (the loop's early return, or
the optimistic commit of lines 482-491 that forces `is_on := target`),
`ok none` when the model ran out of fuel, and `error` when connection
establishment or the retried command write failed. -/
def setOn (env : Env) (target : Bool) (timeout : Int) (fuel : Nat)
    (s : SState) (cur : Cursor) :
    Except Unit (Option Parsed) × SState × Cursor :=
  let deadline := s.now + timeout
  match setOnPre env deadline s cur with
  | (Except.error e, s1, cur1) => (Except.error e, s1, cur1)
  | (Except.ok _, s1, cur1) =>
    match setOnLoop env target deadline fuel s1 cur1 with
    | (Except.error e, s2, cur2) => (Except.error e, s2, cur2)
    | (Except.ok (LoopRes.returned p), s2, cur2) => (Except.ok (some p), s2, cur2)
    | (Except.ok LoopRes.deadlineHit, s2, cur2) =>
      let s3 := { s2 with last := { s2.last with is_on := some target } }
      (Except.ok (some s3.last), s3, cur2)
    | (Except.ok LoopRes.fuelOut, s2, cur2) => (Except.ok none, s2, cur2)

/-!
## Concrete environments and states used by witnesses and counterexamples
-/

/-- A transport where the link always works but the device stays silent:
every connect succeeds, every handle reports live, reads answer with an
empty byte string (the behaviour seen in the device logs), writes
succeed, and no notification ever arrives.  All awaits are instant. -/
def quietEnv : Env where
  isConnected := fun _ => true
  connectOk := fun _ => true
  connectDt := fun _ => 0
  readResult := fun _ => some []
  readDt := fun _ => 0
  writeOk := fun _ => true
  writeDt := fun _ => 0
  waitArrival := fun _ => none

/-- A 52-byte status frame: sync marker at offset 0 with the power-on
flag pair `(01,73)`, room bytes `CA 00` (202) and heater bytes `20 03`
(800). -/
def b52on : Frame :=
  [0xA5, 0x05, 0, 0, 0x01, 0x73] ++ List.replicate 8 0 ++
    [0xCA, 0x00, 0x20, 0x03] ++ List.replicate 34 0

/-- Like `quietEnv`, but the first wait on the 52-byte event receives
`b52on` after 10 centiseconds. -/
def confirmEnv : Env :=
  { quietEnv with waitArrival := fun k => if k = 0 then some (10, b52on) else none }

/-- A connected session with handle 1 at clock 100 and no history. -/
def swC4 : SState := { client := some 1, now := 100 }

/-- A connected session that has already seen `b52on` decoded, but whose
device has since been switched off (`is_on = some false`). -/
def s0c : SState :=
  { client := some 1, now := 100,
    last := { is_on := some false, room_c := some 202,
              heater_c := some 800, raw52 := some b52on } }

/-- A connected session that believes the device is on and observed an
8-byte idle frame at clock 90 (10 centiseconds ago). -/
def sIdle : SState :=
  { client := some 1, now := 100,
    last := { is_on := some true }, last8Ts := some 90 }

/-!
## C8: `_ensure` is idempotent
-/

/-- C8: `_ensure` is idempotent.  (a) If the session's handle exists and
reports itself live, the call returns that handle with the state and
interaction counts unchanged — no connect, no subscribe, no teardown.
(b) Starting disconnected, when the connect succeeds and the fresh
handle reports live, the first call performs exactly one underlying
connect and one notification subscribe, and a second consecutive call
returns the same handle, state and counts untouched. -/
theorem C8_ensure_idempotent :
    (∀ (env : Env) (s : SState) (cur : Cursor) (c : Nat),
        s.client = some c → env.isConnected c = true →
        ensureOp env s cur = (Except.ok c, s, cur)) ∧
    (∀ (env : Env) (s : SState) (cur : Cursor),
        s.client = none → env.connectOk cur.connects = true →
        env.isConnected (cur.connects + 1) = true →
        (ensureOp env s cur).2.2.connects = cur.connects + 1 ∧
        (ensureOp env s cur).2.2.subscribes = cur.subscribes + 1 ∧
        ensureOp env (ensureOp env s cur).2.1 (ensureOp env s cur).2.2 =
          ((ensureOp env s cur).1, (ensureOp env s cur).2.1, (ensureOp env s cur).2.2)) := by
  constructor
  · intro env s cur c hc hl
    simp [ensureOp, hc, hl]
  · intro env s cur hc hok hl
    simp [ensureOp, hc, connectOp, disconnectOp, hok, hl]

/-- Witness for C8 at `quietEnv`: part (a) on a session holding live
handle 1, part (b) on a fresh disconnected session. -/
theorem C8_ensure_idempotent_witness :
    ensureOp quietEnv swC4 ({} : Cursor) = (Except.ok 1, swC4, ({} : Cursor)) ∧
    ((ensureOp quietEnv ({} : SState) ({} : Cursor)).2.2.connects = 1 ∧
     (ensureOp quietEnv ({} : SState) ({} : Cursor)).2.2.subscribes = 1 ∧
     ensureOp quietEnv (ensureOp quietEnv ({} : SState) ({} : Cursor)).2.1
         (ensureOp quietEnv ({} : SState) ({} : Cursor)).2.2 =
       ((ensureOp quietEnv ({} : SState) ({} : Cursor)).1,
        (ensureOp quietEnv ({} : SState) ({} : Cursor)).2.1,
        (ensureOp quietEnv ({} : SState) ({} : Cursor)).2.2)) :=
  ⟨C8_ensure_idempotent.1 quietEnv swC4 {} 1 rfl rfl,
   C8_ensure_idempotent.2 quietEnv {} {} rfl rfl rfl⟩

/-!
## C7: a recent idle frame confirms `set_on(False)`
-/

/-- C7: during `set_on(False)`, once the command phase is over, if an
8-byte idle frame was observed within the 4-second off-confirmation
window (and the loop has not already seen a matching state), the loop
accepts it as confirmation: it sets `power_on := false` and returns at
once — consuming no further transport interaction, hence without waiting
for a 52-byte status frame. -/
theorem C7_idle_confirms_off (env : Env) (timeout : Int) (n : Nat)
    (s : SState) (cur : Cursor) (s1 : SState) (cur1 : Cursor)
    (hpre : setOnPre env (s.now + timeout) s cur = (Except.ok (), s1, cur1))
    (hnow : s1.now < s.now + timeout)
    (hmatch : ¬ s1.last.is_on = some false)
    (hidle : idleOffConfirm s1 = true) :
    setOn env false timeout (n + 1) s cur =
      (Except.ok (some { s1.last with is_on := some false }),
       { s1 with last := { s1.last with is_on := some false } }, cur1) := by
  simp only [setOn, hpre]
  simp only [setOnLoop, if_neg (not_not_intro hnow), if_neg hmatch]
  simp [hidle]

/-- Witness for C7: from `sIdle` (idle frame 10 centiseconds old), the
whole `set_on(False)` call under `quietEnv` returns the off state after
the command write alone. -/
theorem C7_idle_confirms_off_witness :
    setOn quietEnv false 600 10 sIdle ({} : Cursor) =
      (Except.ok (some { sIdle.last with is_on := some false }),
       { ({ sIdle with now := 125 } : SState) with
           last := { sIdle.last with is_on := some false } },
       ({ writes := 1 } : Cursor)) :=
  C7_idle_confirms_off quietEnv 600 9 sIdle {} { sIdle with now := 125 }
    { writes := 1 } (by decide) (by decide) (by decide) (by decide)

/-!
## C3: the optimistic commit of `set_on`
-/

/-- C3 counterexample: the returned `Parsed` carries no flag marking the
unconfirmed case.  Under `confirmEnv` the device answers with `b52on`
and `set_on(True)` returns confirmed (a 52-byte frame was decoded:
`last52Ts = some 135`); under `quietEnv` nothing ever arrives and the
same call returns only after the deadline through the optimistic commit
(`last52Ts = none`): the two returned results are identical, so a caller
cannot distinguish the confirmed result from the optimistic one. -/
theorem C3_counterexample :
    (setOn confirmEnv true 600 10 s0c ({} : Cursor)).1 =
      (setOn quietEnv true 600 10 s0c ({} : Cursor)).1 ∧
    (setOn confirmEnv true 600 10 s0c ({} : Cursor)).2.1.last52Ts = some 135 ∧
    (setOn quietEnv true 600 10 s0c ({} : Cursor)).2.1.last52Ts = none := by
  decide

/-- C3 (amended): when the confirmation loop reaches the deadline without
observing the requested state, `set_on` does not fail: it forces the
in-memory frame's `power_on` to the requested value and returns that
frame.  The returned value is a plain `Parsed` with no unconfirmed flag,
so it is not distinguishable from a confirmed result (only the warning
log records the difference). -/
theorem C3_optimistic_commit (env : Env) (target : Bool) (timeout : Int)
    (fuel : Nat) (s : SState) (cur : Cursor) (s1 : SState) (cur1 : Cursor)
    (s2 : SState) (cur2 : Cursor)
    (hpre : setOnPre env (s.now + timeout) s cur = (Except.ok (), s1, cur1))
    (hloop : setOnLoop env target (s.now + timeout) fuel s1 cur1 =
      (Except.ok LoopRes.deadlineHit, s2, cur2)) :
    setOn env target timeout fuel s cur =
      (Except.ok (some { s2.last with is_on := some target }),
       { s2 with last := { s2.last with is_on := some target } }, cur2) := by
  simp only [setOn, hpre, hloop]

/-- Witness for C3's amended theorem: the quiet run of `set_on(True)`
from `s0c` ends in the optimistic commit. -/
theorem C3_optimistic_commit_witness :
    setOn quietEnv true 600 10 s0c ({} : Cursor) =
      (Except.ok (some { ({ s0c with now := 700 } : SState).last with is_on := some true }),
       { ({ s0c with now := 700 } : SState) with
           last := { ({ s0c with now := 700 } : SState).last with is_on := some true } },
       ({ reads := 4, writes := 10, waits := 9 } : Cursor)) :=
  C3_optimistic_commit quietEnv true 600 10 s0c {} { s0c with now := 125 }
    { writes := 1 } { s0c with now := 700 } { reads := 4, writes := 10, waits := 9 }
    (by decide) (by decide)

/-!
## C9: every normal return of `set_on` reports the requested state
-/

theorem setOnLoop_returned_is_on (env : Env) (target : Bool) (deadline : Int) :
    ∀ (fuel : Nat) (s : SState) (cur : Cursor) (p : Parsed) (s' : SState) (cur' : Cursor),
      setOnLoop env target deadline fuel s cur =
        (Except.ok (LoopRes.returned p), s', cur') →
      p.is_on = some target := by
  intro fuel
  induction fuel with
  | zero =>
    intro s cur p s' cur' h
    simp [setOnLoop] at h
  | succ n ih =>
    intro s cur p s' cur' h
    simp only [setOnLoop] at h
    split at h
    · simp at h
    · split at h
      · rename_i hg
        simp only [Prod.mk.injEq, Except.ok.injEq, LoopRes.returned.injEq] at h
        rw [← h.1]
        exact hg
      · split at h
        · rename_i hc
          simp only [Prod.mk.injEq, Except.ok.injEq, LoopRes.returned.injEq] at h
          rw [← h.1]
          simp [hc.1]
        · split at h
          · simp at h
          · split at h
            · -- a poll error: reconnect, then read, then recurse
              split at h
              · simp at h
              · split at h <;> split at h <;>
                  first
                    | (rename_i hr
                       simp only [Prod.mk.injEq, Except.ok.injEq,
                         LoopRes.returned.injEq] at h
                       rw [← h.1]
                       exact hr.2)
                    | exact ih _ _ _ _ _ h
            · -- the poll ran: confirmation checks, read, recurse
              split at h
              · rename_i hr
                simp only [Prod.mk.injEq, Except.ok.injEq, LoopRes.returned.injEq] at h
                rw [← h.1]
                exact hr.2
              · split at h <;> split at h <;>
                  first
                    | (rename_i hr
                       simp only [Prod.mk.injEq, Except.ok.injEq,
                         LoopRes.returned.injEq] at h
                       rw [← h.1]
                       exact hr.2)
                    | exact ih _ _ _ _ _ h

/-- C9: whenever `set_on(target)` returns normally — confirmed through a
status frame, confirmed through a recent idle frame for the off target,
or optimistically after the deadline — the returned `Parsed` has
`is_on = some target`. -/
theorem C9_result_matches_target (env : Env) (target : Bool) (timeout : Int)
    (fuel : Nat) (s : SState) (cur : Cursor) (p : Parsed) (s' : SState) (cur' : Cursor)
    (h : setOn env target timeout fuel s cur = (Except.ok (some p), s', cur')) :
    p.is_on = some target := by
  simp only [setOn] at h
  split at h
  · simp at h
  · split at h
    · simp at h
    · rename_i heq
      simp only [Prod.mk.injEq, Except.ok.injEq, Option.some.injEq] at h
      rw [← h.1]
      exact setOnLoop_returned_is_on env target _ _ _ _ _ _ _ heq
    · simp only [Prod.mk.injEq, Except.ok.injEq, Option.some.injEq] at h
      rw [← h.1]
    · simp at h

/-- Witness for C9: a zero-timeout `set_on(True)` returns through the
optimistic commit with `is_on = some true`. -/
theorem C9_result_matches_target_witness :
    ({ is_on := some true } : Parsed).is_on = some true :=
  C9_result_matches_target quietEnv true 0 1 swC4 {} { is_on := some true }
    { swC4 with last := { is_on := some true } } { writes := 1 } (by decide)

/-!
## Preservation lemmas: paths that never decode a 52-byte frame leave
`last` untouched
-/

theorem connectOp_last (env : Env) (s : SState) (cur : Cursor) :
    (connectOp env s cur).2.1.last = s.last := by
  simp only [connectOp]
  split_ifs <;> rfl

theorem ensureOp_last (env : Env) (s : SState) (cur : Cursor) :
    (ensureOp env s cur).2.1.last = s.last := by
  cases hc : s.client with
  | none =>
    simp only [ensureOp, hc]
    exact connectOp_last env (disconnectOp s) cur
  | some c =>
    simp only [ensureOp, hc]
    split_ifs with hl
    · rfl
    · exact connectOp_last env (disconnectOp s) cur

theorem notifyCb_evt_false_last (s : SState) (b : Frame)
    (h : (notifyCb s b).evt52 = false) : (notifyCb s b).last = s.last := by
  by_cases hb : b.length = 52
  · exfalso
    simp [notifyCb, hb] at h
  · simp [notifyCb, hb]

theorem waitEvt52_false_last (env : Env) (w : Int) (s : SState) (cur : Cursor)
    (s' : SState) (cur' : Cursor)
    (h : waitEvt52 env w s cur = (false, s', cur')) : s'.last = s.last := by
  simp only [waitEvt52] at h
  split at h
  · split at h
    · split at h
      · simp at h
      · rename_i hevt
        simp only [Prod.mk.injEq] at h
        rw [← h.2.1]
        exact notifyCb_evt_false_last _ _ (by simpa using hevt)
    · simp only [Prod.mk.injEq] at h
      rw [← h.2.1]
  · simp only [Prod.mk.injEq] at h
    rw [← h.2.1]

theorem pollTry_not_true_last (env : Env) (w : Int) (s : SState) (cur : Cursor)
    (r : Except Unit Bool) (s' : SState) (cur' : Cursor)
    (h : pollTry env w s cur = (r, s', cur')) (hr : r ≠ Except.ok true) :
    s'.last = s.last := by
  simp only [pollTry] at h
  split at h
  · rcases hg : waitEvt52 env w ((doWrite env { s with evt52 := false } cur).2.1)
        ((doWrite env { s with evt52 := false } cur).2.2) with ⟨got, s2, cur2⟩
    rw [hg] at h
    simp only [Prod.mk.injEq] at h
    obtain ⟨h1, h2, h3⟩ := h
    cases got with
    | true => exact absurd h1.symm hr
    | false =>
      rw [← h2]
      exact waitEvt52_false_last env w
        ((doWrite env { s with evt52 := false } cur).2.1)
        ((doWrite env { s with evt52 := false } cur).2.2) s2 cur2 hg
  · simp only [Prod.mk.injEq] at h
    rw [← h.2.1]
    rfl

theorem pollFor52_not_true_last (env : Env) (b : Int) (s : SState) (cur : Cursor)
    (r : Except Unit Bool) (s' : SState) (cur' : Cursor)
    (h : pollFor52 env b s cur = (r, s', cur')) (hr : r ≠ Except.ok true) :
    s'.last = s.last := by
  simp only [pollFor52] at h
  split at h
  · simp only [Prod.mk.injEq] at h
    rw [← h.2.1]
  · split at h
    · rename_i s1 cur1 heq1
      simp only [Prod.mk.injEq] at h
      rw [← h.2.1]
      exact pollTry_not_true_last _ _ _ _ _ _ _ heq1 (by simp)
    · simp only [Prod.mk.injEq] at h
      exact absurd h.1.symm hr
    · rename_i s1 cur1 heq1
      have h1 : s1.last = s.last :=
        pollTry_not_true_last _ _ _ _ _ _ _ heq1 (by simp)
      split at h
      · simp only [Prod.mk.injEq] at h
        rw [← h.2.1]
        exact h1
      · rw [pollTry_not_true_last _ _ _ _ _ _ _ h hr]
        exact h1

theorem tryRead52_false_last (env : Env) (s : SState) (cur : Cursor)
    (s' : SState) (cur' : Cursor)
    (h : tryRead52 env s cur = (false, s', cur')) : s'.last = s.last := by
  simp only [tryRead52] at h
  split at h
  · split at h
    · simp at h
    · simp only [Prod.mk.injEq] at h
      rw [← h.2.1]
  · simp only [Prod.mk.injEq] at h
    rw [← h.2.1]

theorem readStep_false_last (env : Env) (dl : Int) (s : SState) (cur : Cursor)
    (s' : SState) (cur' : Cursor)
    (h : (if s.now < dl then tryRead52 env s cur else (false, s, cur)) =
      (false, s', cur')) : s'.last = s.last := by
  split at h
  · exact tryRead52_false_last env s cur s' cur' h
  · simp only [Prod.mk.injEq] at h
    rw [← h.2.1]

theorem sleepStep_last (s : SState) (c : Prop) [Decidable c] (x : Int) :
    (if c then { s with now := x } else s).last = s.last := by
  split_ifs <;> rfl

theorem pollAttempts_none_last (env : Env) (dl ps : Int) :
    ∀ (n : Nat) (s : SState) (cur : Cursor) (s' : SState) (cur' : Cursor),
      pollAttempts env dl ps n s cur = (Except.ok none, s', cur') →
      s'.last = s.last := by
  intro n
  induction n with
  | zero =>
    intro s cur s' cur' h
    simp only [pollAttempts, Prod.mk.injEq] at h
    rw [← h.2.1]
  | succ n ih =>
    intro s cur s' cur' h
    simp only [pollAttempts] at h
    split at h
    · simp only [Prod.mk.injEq] at h
      rw [← h.2.1]
    · split at h
      · simp at h
      · split at h
        · -- the poll raised: disconnect, ensure, continue
          rename_i s1 cur1 heqP
          split at h
          · simp at h
          · rename_i a s2 cur2 heqE
            have hE := ensureOp_last env (disconnectOp s1) cur1
            rw [heqE] at hE
            rw [ih _ _ _ _ h, hE]
            show s1.last = s.last
            exact pollFor52_not_true_last _ _ _ _ _ _ _ heqP (by simp)
        · simp at h
        · -- the poll timed out: idle check, read, pause, recurse
          rename_i s1 cur1 heqP
          have hP : s1.last = s.last :=
            pollFor52_not_true_last _ _ _ _ _ _ _ heqP (by simp)
          split at h
          · simp at h
          · split at h
            · simp at h
            · rename_i s2 cur2 heqR
              rw [ih _ _ _ _ h, sleepStep_last, readStep_false_last _ _ _ _ _ _ heqR]
              exact hP

/-!
## No-error lemmas: only connection establishment can fail `poll_status`
-/

theorem connectOp_ok (env : Env) (s : SState) (cur : Cursor)
    (h : env.connectOk cur.connects = true) :
    (connectOp env s cur).1 = Except.ok (cur.connects + 1) := by
  simp [connectOp, h]

theorem ensureOp_no_error (env : Env) (s : SState) (cur : Cursor)
    (hall : ∀ k, env.connectOk k = true) :
    (ensureOp env s cur).1 ≠ Except.error () := by
  cases hc : s.client with
  | none =>
    simp only [ensureOp, hc]
    rw [connectOp_ok env (disconnectOp s) cur (hall _)]
    simp
  | some c =>
    simp only [ensureOp, hc]
    split_ifs with hl
    · simp
    · rw [connectOp_ok env (disconnectOp s) cur (hall _)]
      simp

theorem pollAttempts_no_error (env : Env) (dl ps : Int)
    (hall : ∀ k, env.connectOk k = true) :
    ∀ (n : Nat) (s : SState) (cur : Cursor),
      (pollAttempts env dl ps n s cur).1 ≠ Except.error () := by
  intro n
  induction n with
  | zero => intro s cur; simp [pollAttempts]
  | succ n ih =>
    intro s cur
    simp only [pollAttempts]
    split
    · simp
    · split
      · simp
      · split
        · rename_i s1 cur1 heqP
          split
          · rename_i s2 cur2 heqE
            have := ensureOp_no_error env (disconnectOp s1) cur1 hall
            rw [heqE] at this
            exact absurd rfl this
          · exact ih _ _
        · simp
        · split
          · simp
          · split
            · simp
            · exact ih _ _

theorem pollWatchdogTail_no_error (env : Env) (s : SState) (cur : Cursor)
    (hall : ∀ k, env.connectOk k = true) :
    (pollWatchdogTail env s cur).1 ≠ Except.error () := by
  simp only [pollWatchdogTail]
  split
  · split
    · split
      · rename_i s1 cur1 heqE
        have := ensureOp_no_error env (disconnectOp s) cur hall
        rw [heqE] at this
        exact absurd rfl this
      · simp
    · simp
  · simp

theorem pollWatchdogTail_ok_val (env : Env) (s : SState) (cur : Cursor)
    (q : Parsed) (s' : SState) (cur' : Cursor)
    (h : pollWatchdogTail env s cur = (Except.ok q, s', cur')) : q = s.last := by
  simp only [pollWatchdogTail] at h
  split at h
  · split at h
    · split at h
      · simp at h
      · rename_i a s1 cur1 heqE
        have hE := ensureOp_last env (disconnectOp s) cur
        rw [heqE] at hE
        simp only [Prod.mk.injEq, Except.ok.injEq] at h
        rw [← h.1]
        exact hE
    · simp only [Prod.mk.injEq, Except.ok.injEq] at h
      exact h.1.symm
  · simp only [Prod.mk.injEq, Except.ok.injEq] at h
    exact h.1.symm

theorem ensureOp_connects_of_none (env : Env) (s : SState) (cur : Cursor)
    (h : s.client = none) :
    (ensureOp env s cur).2.2.connects = cur.connects + 1 := by
  simp only [ensureOp, h, connectOp]
  split_ifs <;> rfl

theorem pollWatchdogTail_connects (env : Env) (s : SState) (cur : Cursor) :
    (pollWatchdogTail env s cur).2.2.connects = cur.connects + watchFire s := by
  cases hts : s.lastAnyNotifyTs with
  | none => simp [pollWatchdogTail, watchFire, hts]
  | some ts =>
    simp only [pollWatchdogTail, watchFire, hts]
    split_ifs with hgt
    · have h0 := ensureOp_connects_of_none env (disconnectOp s) cur rfl
      rcases hE : ensureOp env (disconnectOp s) cur with ⟨r, s1, cur1⟩
      rw [hE] at h0
      cases r with
      | error e => simpa using h0
      | ok a => simpa using h0
    · simp

/-!
## C4: poll exhaustion degrades to stale data, only connection failure
escalates
-/

/-- C4: (a) when the connection is established, the quick read yields no
frame, and all three poll attempts are exhausted without a 52-byte status
frame, `poll_status` does not fail: it returns exactly the previous
last-known `Parsed` (the one stored when the call began).  (b) When every
connection attempt succeeds, `poll_status` never returns an error — so
only failure to establish the connection itself can surface as a refresh
failure to the scheduler. -/
theorem C4_exhaustion_returns_stale :
    (∀ (env : Env) (timeout : Int) (s : SState) (cur : Cursor) (c : Nat)
        (s1 : SState) (cur1 : Cursor) (s2 : SState) (cur2 : Cursor)
        (s3 : SState) (cur3 : Cursor) (q : Parsed) (s4 : SState) (cur4 : Cursor),
        ensureOp env s cur = (Except.ok c, s1, cur1) →
        (if s1.now < s.now + timeout then tryRead52 env s1 cur1
         else (false, s1, cur1)) = (false, s2, cur2) →
        pollAttempts env (s.now + timeout) s.now 3 s2 cur2 =
          (Except.ok none, s3, cur3) →
        pollWatchdogTail env s3 cur3 = (Except.ok q, s4, cur4) →
        pollStatus env timeout s cur = (Except.ok s.last, s4, cur4)) ∧
    (∀ (env : Env) (timeout : Int) (s : SState) (cur : Cursor),
        (∀ k, env.connectOk k = true) →
        (pollStatus env timeout s cur).1 ≠ Except.error ()) := by
  constructor
  · intro env timeout s cur c s1 cur1 s2 cur2 s3 cur3 q s4 cur4 hens hread hatt htail
    have hq : q = s.last := by
      rw [pollWatchdogTail_ok_val env s3 cur3 q s4 cur4 htail]
      have h3 := pollAttempts_none_last env _ _ 3 s2 cur2 s3 cur3 hatt
      have h2 := readStep_false_last env _ s1 cur1 s2 cur2 hread
      have h1 := ensureOp_last env s cur
      rw [hens] at h1
      rw [h3, h2]
      exact h1
    simp only [pollStatus, hens, hread, hatt, htail, hq]
  · intro env timeout s cur hall
    simp only [pollStatus]
    split
    · rename_i heqE
      have := ensureOp_no_error env s cur hall
      rw [heqE] at this
      exact absurd rfl this
    · split
      · simp
      · split
        · rename_i heqA
          exact absurd (congrArg Prod.fst heqA)
            (pollAttempts_no_error env _ _ hall 3 _ _)
        · simp
        · exact pollWatchdogTail_no_error env _ _ hall

/-- The session state after the exhausted quiet poll from `swC4`: three
attempts, each two writes and two 0.9 s waits plus a 0.15 s pause. -/
def s3W : SState := { client := some 1, now := 685 }

/-- The interaction counts after that exhausted poll. -/
def cur3W : Cursor := { reads := 4, writes := 6, waits := 6 }

/-- Witness for C4 part (a): the quiet poll from `swC4` exhausts all
attempts and returns the stale `swC4.last`. -/
theorem C4_exhaustion_returns_stale_witness :
    pollStatus quietEnv 600 swC4 ({} : Cursor) = (Except.ok swC4.last, s3W, cur3W) :=
  C4_exhaustion_returns_stale.1 quietEnv 600 swC4 {} 1 swC4 {} swC4
    ({ reads := 1 } : Cursor) s3W cur3W swC4.last s3W cur3W
    (by decide) (by decide) (by decide) (by decide)

/-!
## C2: the watchdog has no consecutive-failure counter
-/

/-- C2 counterexample: ten consecutive `poll_status` calls from `swC4`
under `quietEnv`, every one exhausting all attempts without ever decoding
a status frame (`last52Ts` stays `none`, `last` never changes), trigger
no forced reconnect at all: the connect count stays 0.  The claimed
consecutive-poll-exhaustion counter with a configured threshold does not
exist; no threshold is ever reached. -/
theorem C2_counterexample :
    (pollStatusIter quietEnv 600 10 swC4 ({} : Cursor)).2.connects = 0 ∧
    (pollStatusIter quietEnv 600 10 swC4 ({} : Cursor)).1.last = swC4.last ∧
    (pollStatusIter quietEnv 600 10 swC4 ({} : Cursor)).1.last52Ts = none := by
  decide

/-- C2 (amended): the watchdog is silence-based, not counter-based.  At
the end of an exhausted poll, `poll_status` performs exactly one forced
reconnect when a notification of any kind has been seen and the silence
since the most recent one exceeds 25 seconds (`watchFire = 1`), and no
reconnect otherwise (`watchFire = 0`); a successful status-frame decode
refreshes the last-notification timestamp, which plays the reset role. -/
theorem C2_watchdog_silence (env : Env) (timeout : Int) (s : SState) (cur : Cursor)
    (c : Nat) (s1 : SState) (cur1 : Cursor) (s2 : SState) (cur2 : Cursor)
    (s3 : SState) (cur3 : Cursor)
    (hens : ensureOp env s cur = (Except.ok c, s1, cur1))
    (hread : (if s1.now < s.now + timeout then tryRead52 env s1 cur1
      else (false, s1, cur1)) = (false, s2, cur2))
    (hatt : pollAttempts env (s.now + timeout) s.now 3 s2 cur2 =
      (Except.ok none, s3, cur3)) :
    (pollStatus env timeout s cur).2.2.connects = cur3.connects + watchFire s3 := by
  simp only [pollStatus, hens, hread, hatt]
  exact pollWatchdogTail_connects env s3 cur3

/-- Witness for C2's amended theorem on the quiet exhausted poll (recent
silence is impossible there — no notification was ever seen — so
`watchFire = 0` and the connect count is unchanged). -/
theorem C2_watchdog_silence_witness :
    (pollStatus quietEnv 600 swC4 ({} : Cursor)).2.2.connects =
      cur3W.connects + watchFire s3W :=
  C2_watchdog_silence quietEnv 600 swC4 {} 1 swC4 {} swC4
    ({ reads := 1 } : Cursor) s3W cur3W
    (by decide) (by decide) (by decide)

end Profter
